import Mathlib

/-
  Formal model of the yo notification pipeline.

  Shallow embedding of the core of the repository:
    * yo/db.py                              -- chain status lease, notification
                                               and action stores, priority counts
    * yo/ratelimits.py                      -- check_ratelimit
    * yo/services/notification_sender.py    -- run_send_notify dispatch cycle
    * yo/services/blockchain_follower.py    -- op classification (follow, resteem,
                                               mention)

  Database tables are modelled as in-memory lists of rows; timestamps are
  integers; a store query that may raise is modelled as an Except value.
-/

namespace Yo

/-! ## Priority levels (yo/db.py, class Priority) -/

def Priority.MARKETING : Int := 1
def Priority.LOW : Int := 2
def Priority.NORMAL : Int := 3
def Priority.PRIORITY : Int := 4
def Priority.ALWAYS : Int := 5

/-! ## Chain status singleton row (yo/db.py, chain_status_table) -/

structure ChainStatus where
  last_processed_block : Int
  last_processed_time : Int
  lock_expires : Int
  active_follower_id : String
  deriving DecidableEq

/-- yo/db.py `try_update_status`: conditional UPDATE of the singleton chain
status row, gated on `active_follower_id == follower_id` and
`last_processed_block <= last_processed_block_param`; on success sets the new
block number, sets `last_processed_time` to now and `lock_expires` to
now + lock_timeout.  Returns the (possibly unchanged) status. -/
def try_update_status (status : Option ChainStatus) (follower_id : String)
    (last_processed_block : Int) (now : Int) (lock_timeout : Int) : Option ChainStatus :=
  match status with
  | none => none
  | some s =>
    if s.active_follower_id = follower_id ∧ s.last_processed_block ≤ last_processed_block then
      some { s with last_processed_block := last_processed_block,
                    last_processed_time := now,
                    lock_expires := now + lock_timeout }
    else some s

/-- yo/db.py `try_active_follower`: if no status row exists, INSERT one with the
candidate as active follower; otherwise a conditional UPDATE of
`active_follower_id` and `lock_expires`, gated on `lock_expires <= now`
(the previous lease has expired).  `last_processed_block` is only written on
the INSERT path. -/
def try_active_follower (status : Option ChainStatus) (follower_id : String)
    (last_processed_block : Int) (now : Int) (lock_timeout : Int) : Option ChainStatus :=
  match status with
  | none =>
    some { last_processed_block := last_processed_block,
           last_processed_time := now,
           lock_expires := now + lock_timeout,
           active_follower_id := follower_id }
  | some s =>
    if s.lock_expires ≤ now then
      some { s with active_follower_id := follower_id,
                    lock_expires := now + lock_timeout }
    else some s

/-! ## Notification store (yo/db.py, notifications_table) -/

structure Notification where
  nid : String
  notify_type : String
  to_username : String
  from_username : Option String
  json_data : String
  priority_level : Int
  trx_id : Option String
  created_at : Int
  deriving DecidableEq

/-- The column tuple of the unique constraint `yo_notification_idx`. -/
def notifKey (n : Notification) : String × String × Option String × Option String :=
  (n.to_username, n.notify_type, n.trx_id, n.from_username)

/-- yo/db.py `create_notification`: INSERT into yo_notifications.  A duplicate
of the unique key tuple raises an IntegrityError which is caught and logged
("Ignoring duplicate entry error"), but the function then falls through to
`return False`; only a fresh insert reaches `return True`. -/
def create_notification (store : List Notification) (n : Notification) :
    Bool × List Notification :=
  if store.any (fun m => decide (notifKey m = notifKey n)) then
    (false, store)
  else
    (true, store ++ [n])

/-- yo/db.py `_create_notification`: same INSERT, but the duplicate-entry
branch explicitly returns True (duplicate absorbed as success). -/
def _create_notification (store : List Notification) (n : Notification) :
    Bool × List Notification :=
  if store.any (fun m => decide (notifKey m = notifKey n)) then
    (true, store)
  else
    (true, store ++ [n])

/-- Number of stored rows carrying a given unique-key tuple. -/
def rowsWithKey (store : List Notification)
    (k : String × String × Option String × Option String) : Nat :=
  store.countP (fun m => decide (notifKey m = k))

/-! ## Action ledger (yo/db.py, actions_table) -/

structure ActionRec where
  nid : String
  to_username : String
  transport : String
  priority_level : Int
  status : String
  created_at : Int
  deriving DecidableEq

/-- The row inserted by `mark_sent` for one delivery attempt. -/
def sentAction (n : Notification) (transport : String) (now : Int) : ActionRec :=
  { nid := n.nid,
    to_username := n.to_username,
    transport := transport,
    priority_level := n.priority_level,
    status := "Sent",
    created_at := now }

/-- yo/db.py `mark_sent`: INSERT one action row recording a delivery of a
notification through a transport, with the priority level copied from the
notification and `created_at` set to now. -/
def mark_sent (actions : List ActionRec) (n : Notification) (transport : String)
    (now : Int) : List ActionRec :=
  actions ++ [sentAction n transport now]

/-- yo/db.py `get_priority_count`: count of action rows for a user with
`priority_level >= priority` and `created_at >= start_time`, where
`start_time` defaults to `now - timeframe`.  The surrounding try/except
leaves the initial `retval = 0` in place when the store query raises, and a
final guard clamps negative values to 0. -/
def get_priority_count (query : Except String (List ActionRec)) (to_username : String)
    (priority : Int) (timeframe : Int) (now : Int) (start_time : Option Int) : Int :=
  let st := start_time.getD (now - timeframe)
  let retval : Int :=
    match query with
    | Except.error _ => 0
    | Except.ok rows =>
        ((rows.filter (fun a =>
            decide (a.to_username = to_username)
            && decide (priority ≤ a.priority_level)
            && decide (st ≤ a.created_at))).length : Int)
  if retval < 0 then 0 else retval

/-! ## Rate limiter (yo/ratelimits.py, check_ratelimit) -/

/-- yo/ratelimits.py `check_ratelimit`: per-tier sliding-window admission
policy over `get_priority_count`; an unrecognized priority level is denied. -/
def check_ratelimit (query : Except String (List ActionRec)) (n : Notification)
    (override : Bool) (now : Int) : Bool :=
  let u := n.to_username
  let p := n.priority_level
  if p = Priority.ALWAYS then
    decide (get_priority_count query u Priority.ALWAYS 3600 now none < 10)
  else if p = Priority.PRIORITY then
    if override then
      decide (get_priority_count query u Priority.PRIORITY 3600 now none ≤ 10)
    else
      decide (get_priority_count query u Priority.PRIORITY 3600 now none ≤ 1)
  else if p = Priority.NORMAL then
    if override then
      decide (get_priority_count query u Priority.NORMAL 60 now none < 3)
    else
      decide (get_priority_count query u Priority.NORMAL 60 now none ≤ 1)
  else if p = Priority.LOW then
    if override then
      decide (get_priority_count query u Priority.LOW 3600 now none < 10)
    else
      decide (get_priority_count query u Priority.LOW 3600 now none = 0)
  else if p = Priority.MARKETING then
    if override then
      decide (get_priority_count query u Priority.MARKETING 86400 now none ≤ 1)
    else
      decide (get_priority_count query u Priority.MARKETING 3600 now none ≤ 1)
  else
    false

/-! ## Dispatch cycle (yo/services/notification_sender.py, run_send_notify) -/

/-- Settings of one transport from the preference object of a user. -/
structure TransportData where
  notification_types : List String
  sub_data : String
  deriving DecidableEq

/-- One step of building `user_notify_types_transports`: append a
(transport name, sub_data) pair to the entry of a notify type. -/
def addTypeEntry (m : List (String × List (String × String))) (nt : String)
    (v : String × String) : List (String × List (String × String)) :=
  if m.any (fun e => e.fst == nt) then
    m.map (fun e => if e.fst == nt then (e.fst, e.snd ++ [v]) else e)
  else
    m ++ [(nt, [v])]

/-- The `user_notify_types_transports` dict built in `run_send_notify`:
for each configured transport and each notify type it enables, record the
(transport name, sub_data) pair under that type. -/
def build_notify_types_transports (user_transports : List (String × TransportData)) :
    List (String × List (String × String)) :=
  user_transports.foldl
    (fun m t =>
      t.snd.notification_types.foldl
        (fun m2 nt => addTypeEntry m2 nt (t.fst, t.snd.sub_data)) m)
    []

/-- Whether an Except value is a success. -/
def isOkE {ε α : Type} (e : Except ε α) : Bool :=
  match e with
  | Except.ok _ => true
  | Except.error _ => false

/-- The inner fan-out loop of `run_send_notify`: for each enabled transport,
call `send_notification` and, if (and only if) it returned without raising,
insert one action row via `mark_sent`; a raising transport is caught and
logged and the loop continues.  The second component records which transports
had `send_notification` invoked. -/
def send_to_transports (sends : String → Except String Unit) (actions : List ActionRec)
    (n : Notification) (transports : List (String × String)) (now : Int) :
    List ActionRec × List String :=
  transports.foldl
    (fun acc t =>
      match sends t.fst with
      | Except.ok _ => (mark_sent acc.fst n t.fst now, acc.snd ++ [t.fst])
      | Except.error _ => (acc.fst, acc.snd ++ [t.fst]))
    (actions, [])

/-- Association-list lookup modelling the Python dict subscript
`user_notify_types_transports[notify_type]`; `none` models the KeyError
raised when the type is enabled for no transport. -/
def lookupTypeEntry (m : List (String × List (String × String))) (k : String) :
    Option (List (String × String)) :=
  (m.find? (fun e => e.fst == k)).map Prod.snd

/-- The per-notification loop of `run_send_notify` for one user: check the
rate limit against the live action ledger (skip on denial), then subscript
`user_notify_types_transports` with the type of the notification -- an uncaught
KeyError (modelled as `Except.error`) when the type has no entry -- and fan
out to the listed transports. -/
def dispatch_user_notifs (sends : String → Except String Unit)
    (m : List (String × List (String × String))) (actions : List ActionRec) :
    List Notification → Int → Except String (List ActionRec)
  | [], _ => Except.ok actions
  | n :: rest, now =>
    if check_ratelimit (Except.ok actions) n false now then
      match lookupTypeEntry m n.notify_type with
      | none => Except.error ("KeyError: " ++ n.notify_type)
      | some ts =>
        dispatch_user_notifs sends m (send_to_transports sends actions n ts now).fst rest now
    else
      dispatch_user_notifs sends m actions rest now

/-- The per-user loop of `run_send_notify`: each user contributes their
transport preferences and their list of unsent notifications; an exception
escaping the per-notification loop of one user aborts the whole cycle. -/
def run_send_notify (sends : String → Except String Unit)
    (users : List (List (String × TransportData) × List Notification))
    (actions : List ActionRec) (now : Int) : Except String (List ActionRec) :=
  match users with
  | [] => Except.ok actions
  | (prefs, notifs) :: rest =>
    match dispatch_user_notifs sends (build_notify_types_transports prefs) actions notifs now with
    | Except.error e => Except.error e
    | Except.ok acts => run_send_notify sends rest acts now

/-! ## Mention scanning (yo/services/blockchain_follower.py) -/

/-- The class `[a-z]` in MENTION_PATTERN. -/
def isLowerAZ (c : Char) : Bool :=
  decide ('a' ≤ c) && decide (c ≤ 'z')

/-- The class `[0-9]`. -/
def isDigitCh (c : Char) : Bool :=
  decide ('0' ≤ c) && decide (c ≤ '9')

/-- The character class of the repeated group in MENTION_PATTERN. -/
def isNameChar (c : Char) : Bool :=
  isLowerAZ c || isDigitCh c || c == '-'

/-- The whitespace class matched by the trailing \\s (ASCII subset). -/
def isSpaceCh (c : Char) : Bool :=
  c == ' ' || c == '\t' || c == '\n' || c == '\r'
  || c == Char.ofNat 11 || c == Char.ofNat 12

/-- One attempted regex match of MENTION_PATTERN at the current position.
The repeated class excludes both the leading literal and the whitespace
class, so the greedy quantifier succeeds for exactly one repetition count:
the full run of name characters after the leading letter, which must have
length 2..15 and be followed by a whitespace character.  Returns the captured
username and the total number of characters consumed by the match. -/
def mentionMatch (l : List Char) : Option (List Char × Nat) :=
  match l with
  | a :: c0 :: rest =>
    if a = '@' ∧ isLowerAZ c0 = true then
      let run := rest.takeWhile isNameChar
      if 2 ≤ run.length ∧ run.length ≤ 15 then
        match (rest.drop run.length).head? with
        | some w => if isSpaceCh w then some (c0 :: run, run.length + 3) else none
        | none => none
      else none
    else none
  | _ => none

/-- The scan of `re.findall` over MENTION_PATTERN with explicit fuel: left to right,
emit the captured group of every non-overlapping match, resuming after each
match.  The fuel only needs to dominate the length of the input. -/
def findMentionsF : Nat → List Char → List (List Char)
  | 0, _ => []
  | Nat.succ fuel, l =>
    match mentionMatch l with
    | some (name, k) => name :: findMentionsF fuel (l.drop k)
    | none =>
      match l with
      | [] => []
      | _ :: rest => findMentionsF fuel rest

/-- The call `re.findall(MENTION_PATTERN, haystack)`. -/
def findMentions (l : List Char) : List (List Char) :=
  findMentionsF l.length l

/-- Modelled from the spec: the mention token test at one position, following
the words of the spec -- an "@" sigil, then a username of a leading lowercase
letter plus 2..15 further lowercase/digit/hyphen characters (3..16 in all),
followed by a whitespace character. -/
def specMentionAt (l : List Char) : Option (List Char) :=
  match l with
  | [] => none
  | c :: rest =>
    if c = '@' then
      match rest.takeWhile isNameChar with
      | [] => none
      | c0 :: nm =>
        if isLowerAZ c0 = true ∧ 3 ≤ (c0 :: nm).length ∧ (c0 :: nm).length ≤ 16 then
          match (rest.drop (c0 :: nm).length).head? with
          | some w => if isSpaceCh w then some (c0 :: nm) else none
          | none => none
        else none
    else none

/-- Modelled from the spec: every occurrence, position by position, of a
mention token in the text (occurrences cannot overlap, as a match contains
no further "@"). -/
def specMentionOccurrences : List Char → List (List Char)
  | [] => []
  | c :: rest => (specMentionAt (c :: rest)).toList ++ specMentionOccurrences rest

/-- A parsed comment operation as consumed by `handle_mention`. -/
structure CommentOp where
  trx_id : Option String
  author : String
  permlink : String
  body : List Char
  deriving DecidableEq

/-- json.dumps of the {author, permlink} dict stored with a mention. -/
def mentionJsonData (author permlink : String) : String :=
  "\x7b\"author\": \"" ++ author ++ "\", \"permlink\": \"" ++ permlink ++ "\"\x7d"

/-- The notification candidate built for one mention match.  `nid` and
`created_at` are filled in by the store on insert. -/
def mkMentionNotif (op : CommentOp) (name : List Char) : Notification :=
  { nid := "",
    notify_type := "mention",
    to_username := String.mk name,
    from_username := some op.author,
    json_data := mentionJsonData op.author op.permlink,
    priority_level := Priority.LOW,
    trx_id := op.trx_id,
    created_at := 0 }

/-- yo/services/blockchain_follower.py `handle_mention`: scan
`body + '\n'` with MENTION_PATTERN and emit one MENTION candidate per match,
addressed to the matched name, from the comment author. -/
def handle_mention (op : CommentOp) : List Notification :=
  (findMentions (op.body ++ ['\n'])).map (fun name => mkMentionNotif op name)

/-! ## Follow / resteem classification (yo/services/blockchain_follower.py) -/

/-- The parsed `json` field of a custom_json operation: the tag
(`follow_data[0]`) and the dict fields the handlers subscript
(`none` models a KeyError on a missing key). -/
structure CustomJsonPayload where
  tag : String
  follower : Option String
  following : Option String
  account : Option String
  author : Option String
  permlink : Option String
  deriving DecidableEq

/-- A custom_json operation with id "follow" as consumed by the handlers. -/
structure CustomJsonOp where
  trx_id : Option String
  required_posting_auths : List String
  payload : CustomJsonPayload
  deriving DecidableEq

/-- json.dumps of the follow payload dict. -/
def followJsonData (follower following : String) : String :=
  "\x7b\"follower\": \"" ++ follower ++ "\", \"following\": \"" ++ following ++ "\"\x7d"

/-- json.dumps of the reblog payload dict. -/
def resteemJsonData (account author permlink : String) : String :=
  "\x7b\"account\": \"" ++ account ++ "\", \"author\": \"" ++ author
    ++ "\", \"permlink\": \"" ++ permlink ++ "\"\x7d"

/-- yo/services/blockchain_follower.py `handle_follow`: reject (returning
False, producing nothing) unless the payload tag is "follow", the op carries
exactly one posting auth and that auth equals the follower; otherwise emit
one FOLLOW candidate to the followed account. -/
def handle_follow (op : CustomJsonOp) : Except String (Bool × List Notification) :=
  let fd := op.payload
  if fd.tag ≠ "follow" then Except.ok (false, [])
  else
    match fd.follower, fd.following with
    | some follower, some following =>
      if op.required_posting_auths.length ≠ 1 then Except.ok (false, [])
      else if op.required_posting_auths.head? ≠ some follower then Except.ok (false, [])
      else
        Except.ok (true,
          [{ nid := "",
             notify_type := "follow",
             to_username := following,
             from_username := some follower,
             json_data := followJsonData follower following,
             priority_level := Priority.LOW,
             trx_id := op.trx_id,
             created_at := 0 }])
    | _, _ => Except.error "KeyError"

/-- yo/services/blockchain_follower.py `handle_resteem`: ignore (returning
True, producing nothing) unless the payload tag is "reblog"; reject invalid
posting auths the same way; otherwise emit one RESTEEM candidate to the
original author. -/
def handle_resteem (op : CustomJsonOp) : Except String (Bool × List Notification) :=
  let rd := op.payload
  if rd.tag ≠ "reblog" then Except.ok (true, [])
  else
    match rd.account, rd.author, rd.permlink with
    | some account, some author, some permlink =>
      if op.required_posting_auths.length ≠ 1 then Except.ok (true, [])
      else if op.required_posting_auths.head? ≠ some account then Except.ok (true, [])
      else
        Except.ok (true,
          [{ nid := "",
             notify_type := "resteem",
             to_username := author,
             from_username := some account,
             json_data := resteemJsonData account author permlink,
             priority_level := Priority.LOW,
             trx_id := op.trx_id,
             created_at := 0 }])
    | _, _, _ => Except.error "KeyError"

/-- yo/services/blockchain_follower.py `notify` on a custom_json op with id
"follow": run `handle_follow` and `handle_resteem` on the op (asyncio.gather);
an exception from either propagates, otherwise the produced candidates are
those of both handlers. -/
def handle_custom_json_follow (op : CustomJsonOp) : Except String (List Notification) :=
  match handle_follow op, handle_resteem op with
  | Except.ok (_, n1), Except.ok (_, n2) => Except.ok (n1 ++ n2)
  | Except.error e, _ => Except.error e
  | _, Except.error e => Except.error e

/-! ## Concrete sample data used by the closed evaluation theorems -/

/-- A vote notification as inserted by `handle_vote`. -/
def voteNotif : Notification :=
  { nid := "n1",
    notify_type := "vote",
    to_username := "testupvoted",
    from_username := some "testupvoter",
    json_data := "",
    priority_level := Priority.LOW,
    trx_id := some "trx1",
    created_at := 0 }

/-- A follow notification as inserted by `handle_follow`. -/
def followNotif : Notification :=
  { nid := "n2",
    notify_type := "follow",
    to_username := "testfollowed",
    from_username := some "testfollower",
    json_data := "",
    priority_level := Priority.LOW,
    trx_id := some "trx2",
    created_at := 0 }

/-- A transport layer in which every `send_notification` call raises. -/
def raisingSend : String → Except String Unit := fun _ => Except.error "transport raised"

/-- A transport layer in which every `send_notification` call succeeds. -/
def workingSend : String → Except String Unit := fun _ => Except.ok ()

/-- Preferences enabling only the "mock" transport, only for "vote". -/
def mockVotePrefs : List (String × TransportData) :=
  [("mock", { notification_types := ["vote"], sub_data := "" })]

/-- A chain status row whose lease expires at time 100, block cursor at 7. -/
def sampleStatus : ChainStatus :=
  { last_processed_block := 7,
    last_processed_time := 0,
    lock_expires := 100,
    active_follower_id := "incumbent" }

/-- A follow custom_json op carrying two posting auths. -/
def badFollowOp : CustomJsonOp :=
  { trx_id := some "trx3",
    required_posting_auths := ["signer1", "signer2"],
    payload := { tag := "follow", follower := some "signer1", following := some "bob",
                 account := none, author := none, permlink := none } }

/-- A reblog custom_json op whose single posting auth is not the reblogging
account. -/
def badResteemOp : CustomJsonOp :=
  { trx_id := some "trx4",
    required_posting_auths := ["intruder"],
    payload := { tag := "reblog", follower := none, following := none,
                 account := some "rebloguser", author := some "bob", permlink := some "post" } }

/-- A comment op whose body ends in a mention with no trailing whitespace. -/
def trailingMentionOp : CommentOp :=
  { trx_id := some "trx5",
    author := "carol",
    permlink := "post",
    body := "hi @alice".data }

/-- A comment op with a repeated mention, an overlong name and a trailing
mention. -/
def repeatedMentionOp : CommentOp :=
  { trx_id := some "trx6",
    author := "dave",
    permlink := "post",
    body := "@ab3 x @toolongusernamexyz @ab3 and @alice".data }

/-! ## Helper lemmas -/

/-- On a successful query, `get_priority_count` is the length of the filtered
action list (the final clamp is a no-op on a natural length). -/
theorem get_priority_count_ok (rows : List ActionRec) (u : String) (p w now : Int) :
    get_priority_count (Except.ok rows) u p w now none
      = ((rows.filter (fun a =>
          decide (a.to_username = u)
          && decide (p ≤ a.priority_level)
          && decide (now - w ≤ a.created_at))).length : Int) := by
  unfold get_priority_count
  rw [if_neg (not_lt.mpr (Int.natCast_nonneg _))]
  rfl

/-- A failing store query and an empty action ledger give the same count. -/
theorem get_priority_count_error_eq_nil (e : String) (u : String) (p w now : Int) :
    get_priority_count (Except.error e) u p w now none
      = get_priority_count (Except.ok []) u p w now none := rfl

/-! ## Claim theorems -/

/-- Claim C1 (code_bug evidence): inserting the same unique-key tuple twice
through `create_notification` leaves exactly one stored row, but the second
insert reports `false` (the duplicate branch logs "Ignoring duplicate entry
error" yet falls through to `return False`), while the sibling
`_create_notification` reports `true` on the identical duplicate. -/
theorem c1_duplicate_insert_reports_failure :
    create_notification [] voteNotif = (true, [voteNotif])
    ∧ (create_notification [voteNotif] voteNotif).fst = false
    ∧ (create_notification [voteNotif] voteNotif).snd = [voteNotif]
    ∧ rowsWithKey (create_notification [voteNotif] voteNotif).snd (notifKey voteNotif) = 1
    ∧ (_create_notification [voteNotif] voteNotif).fst = true := by
  decide

/-- Claim C4: a `try_active_follower` call made while the current lease has
not expired leaves the chain status row completely unchanged (in particular
`active_follower_id` and `last_processed_block`), so of two such calls with
different candidate ids at most one id can end up as the recorded
`active_follower_id`. -/
theorem c4_lease_mutual_exclusion (s : ChainStatus) (id1 id2 : String)
    (lpb1 lpb2 now1 now2 t1 t2 : Int)
    (h1 : now1 < s.lock_expires) (h2 : now2 < s.lock_expires) (hne : id1 ≠ id2) :
    try_active_follower (some s) id1 lpb1 now1 t1 = some s
    ∧ try_active_follower (try_active_follower (some s) id1 lpb1 now1 t1) id2 lpb2 now2 t2
        = some s
    ∧ ∀ s2, try_active_follower (try_active_follower (some s) id1 lpb1 now1 t1) id2 lpb2 now2 t2
        = some s2 → ¬(s2.active_follower_id = id1 ∧ s2.active_follower_id = id2) := by
  have e1 : try_active_follower (some s) id1 lpb1 now1 t1 = some s := by
    simp [try_active_follower, not_le.mpr h1]
  have e2 : try_active_follower (some s) id2 lpb2 now2 t2 = some s := by
    simp [try_active_follower, not_le.mpr h2]
  refine ⟨e1, by rw [e1, e2], ?_⟩
  intro s2 _ hboth
  exact hne (hboth.1 ▸ hboth.2 ▸ rfl)

/-- Claim C4 witness: two candidates, lease expiring at 100, calls at 10 and 20. -/
theorem c4_lease_mutual_exclusion_witness :
    try_active_follower (some sampleStatus) "cand1" 0 10 5 = some sampleStatus
    ∧ try_active_follower (try_active_follower (some sampleStatus) "cand1" 0 10 5)
        "cand2" 0 20 5 = some sampleStatus := by
  obtain ⟨a, b, _⟩ :=
    c4_lease_mutual_exclusion sampleStatus "cand1" "cand2" 0 0 10 20 5 5
      (by decide) (by decide) (by decide)
  exact ⟨a, b⟩

/-- Claim C5: `try_update_status` never decreases `last_processed_block`; when
the caller is the recorded active follower and the new block is at least the
recorded one, the row is updated to the new block with `last_processed_time =
now` and `lock_expires = now + lock_timeout`; otherwise the row is unchanged
(so the update succeeds only under that guard). -/
theorem c5_monotonic_progress (s : ChainStatus) (fid : String) (nb now t : Int) :
    ∃ s', try_update_status (some s) fid nb now t = some s'
      ∧ s.last_processed_block ≤ s'.last_processed_block
      ∧ ((s.active_follower_id = fid ∧ s.last_processed_block ≤ nb) →
          s'.last_processed_block = nb ∧ s'.last_processed_time = now
          ∧ s'.lock_expires = now + t ∧ s'.active_follower_id = s.active_follower_id)
      ∧ (¬(s.active_follower_id = fid ∧ s.last_processed_block ≤ nb) → s' = s) := by
  by_cases h : s.active_follower_id = fid ∧ s.last_processed_block ≤ nb
  · have he : try_update_status (some s) fid nb now t
        = some { s with last_processed_block := nb, last_processed_time := now,
                        lock_expires := now + t } := by
      simp [try_update_status, h.1, h.2]
    exact ⟨_, he, h.2, fun _ => ⟨rfl, rfl, rfl, rfl⟩, fun hn => absurd h hn⟩
  · have he : try_update_status (some s) fid nb now t = some s := by
      simp only [try_update_status]
      rw [if_neg h]
    exact ⟨s, he, le_refl _, fun hp => absurd hp h, fun _ => rfl⟩

/-- Claim C5 witness: the incumbent follower advances block 7 to 9 at time 100
with a 3 second lease. -/
theorem c5_monotonic_progress_witness :
    ∃ s', try_update_status (some sampleStatus) "incumbent" 9 100 3 = some s'
      ∧ sampleStatus.last_processed_block ≤ s'.last_processed_block
      ∧ ((sampleStatus.active_follower_id = "incumbent"
            ∧ sampleStatus.last_processed_block ≤ 9) →
          s'.last_processed_block = 9 ∧ s'.last_processed_time = 100
          ∧ s'.lock_expires = 100 + 3
          ∧ s'.active_follower_id = sampleStatus.active_follower_id)
      ∧ (¬(sampleStatus.active_follower_id = "incumbent"
            ∧ sampleStatus.last_processed_block ≤ 9) → s' = sampleStatus) :=
  c5_monotonic_progress sampleStatus "incumbent" 9 100 3

/-- Claim C10: `get_priority_count` is never negative; on a raising store
query it returns 0; consequently `check_ratelimit` during a store outage
decides exactly as it would for a user with an empty action ledger. -/
theorem c10_priority_count_fails_open (q : Except String (List ActionRec))
    (u : String) (p w now : Int) (st : Option Int) (e : String)
    (n : Notification) (ov : Bool) (now2 : Int) :
    0 ≤ get_priority_count q u p w now st
    ∧ get_priority_count (Except.error e) u p w now st = 0
    ∧ check_ratelimit (Except.error e) n ov now2 = check_ratelimit (Except.ok []) n ov now2 := by
  refine ⟨?_, ?_, ?_⟩
  · cases q with
    | error e2 => simp [get_priority_count]
    | ok rows =>
      simp only [get_priority_count]
      split_ifs with h
      · omega
      · omega
  · rfl
  · simp only [check_ratelimit, get_priority_count_error_eq_nil]

/-- The fan-out fold of `send_to_transports`, characterized for an arbitrary
accumulator: every listed transport has its send invoked, and an action row
is appended exactly for the transports whose send succeeded. -/
theorem send_to_transports_fold (sends : String → Except String Unit) (n : Notification)
    (now : Int) :
    ∀ (ts : List (String × String)) (acc : List ActionRec × List String),
      ts.foldl
        (fun acc t =>
          match sends t.fst with
          | Except.ok _ => (mark_sent acc.fst n t.fst now, acc.snd ++ [t.fst])
          | Except.error _ => (acc.fst, acc.snd ++ [t.fst]))
        acc
      = (acc.fst ++ (ts.filter (fun t => isOkE (sends t.fst))).map
            (fun t => sentAction n t.fst now),
         acc.snd ++ ts.map Prod.fst) := by
  intro ts
  induction ts with
  | nil => intro acc; simp
  | cons t ts ih =>
    intro acc
    rw [List.foldl_cons, ih]
    cases hs : sends t.fst with
    | ok v => simp [hs, mark_sent, isOkE]
    | error e => simp [hs, isOkE]

/-- Claim C2 (amended): within one dispatch cycle, `send` is invoked on every
transport enabled for an approved notification, but an Action row is recorded
only for the attempts in which the transport-level send returned without
raising; a raising transport is caught and the remaining transports still
get their sends and Actions. -/
theorem c2_action_only_on_successful_send (sends : String → Except String Unit)
    (actions : List ActionRec) (n : Notification) (ts : List (String × String))
    (now : Int) :
    (send_to_transports sends actions n ts now).snd = ts.map Prod.fst
    ∧ (send_to_transports sends actions n ts now).fst
        = actions ++ (ts.filter (fun t => isOkE (sends t.fst))).map
            (fun t => sentAction n t.fst now) := by
  unfold send_to_transports
  rw [send_to_transports_fold]
  exact ⟨by simp, rfl⟩

/-- Claim C2 witness: one failing and one working transport; both sends are
invoked and exactly the Action of the working transport is recorded. -/
theorem c2_action_only_on_successful_send_witness :
    (send_to_transports raisingSend [] voteNotif [("mock", "")] 0).snd = ["mock"]
    ∧ (send_to_transports raisingSend [] voteNotif [("mock", "")] 0).fst
        = [] ++ ([("mock", "")].filter
            (fun t => isOkE (raisingSend t.fst))).map
            (fun t => sentAction voteNotif t.fst 0) :=
  c2_action_only_on_successful_send raisingSend [] voteNotif [("mock", "")] 0

/-- Claim C2 counterexample: the transport-level send raises, the exception is
caught, and no Action row at all is recorded for the attempt -- the clause
"one Action for the attempt regardless of ... raised an exception" fails. -/
theorem c2_failed_send_records_no_action :
    (send_to_transports raisingSend [] voteNotif [("mock", "")] 0).snd = ["mock"]
    ∧ (send_to_transports raisingSend [] voteNotif [("mock", "")] 0).fst = []
    ∧ (send_to_transports workingSend [] voteNotif [("mock", "")] 0).fst
        = [sentAction voteNotif "mock" 0] := by
  decide

/-- Claim C3 (code_bug evidence): a pending "follow" notification for a user
whose preferences enable no transport for type "follow" makes the dispatch
cycle abort with a KeyError escaping the per-notification loop (nothing is
delivered, including the perfectly deliverable "vote" notification of a second
notification), whereas the same cycle without the orphaned notification
delivers the vote. -/
theorem c3_unhandled_type_aborts_dispatch :
    run_send_notify workingSend
        [(mockVotePrefs, [followNotif]), (mockVotePrefs, [voteNotif])] [] 0
      = Except.error ("KeyError: " ++ "follow")
    ∧ run_send_notify workingSend [(mockVotePrefs, [voteNotif])] [] 0
      = Except.ok [sentAction voteNotif "mock" 0] := by
  constructor
  · rfl
  · rfl

/-- Claim C6: on a working store, the admission count is exactly the number of
action rows for the user at or above the given priority level created within
the trailing window, and recording one PRIORITY-level delivery raises by one
the count a subsequent LOW-tier admission check for that user observes. -/
theorem c6_nested_priority_count (rows : List ActionRec) (u tr : String)
    (p w now : Int) (n : Notification)
    (hu : n.to_username = u) (hp : n.priority_level = Priority.PRIORITY) :
    get_priority_count (Except.ok rows) u p w now none
      = ((rows.countP (fun a =>
          decide (a.to_username = u ∧ p ≤ a.priority_level ∧ now - w ≤ a.created_at))) : Int)
    ∧ get_priority_count (Except.ok (mark_sent rows n tr now)) u Priority.LOW 3600 now none
      = get_priority_count (Except.ok rows) u Priority.LOW 3600 now none + 1 := by
  have hfun : (fun a : ActionRec =>
        decide (a.to_username = u) && decide (p ≤ a.priority_level)
          && decide (now - w ≤ a.created_at))
      = (fun a : ActionRec =>
        decide (a.to_username = u ∧ p ≤ a.priority_level ∧ now - w ≤ a.created_at)) := by
    funext a
    by_cases h1 : a.to_username = u <;> by_cases h2 : p ≤ a.priority_level
      <;> by_cases h3 : now - w ≤ a.created_at <;> simp [h1, h2, h3]
  constructor
  · rw [get_priority_count_ok, List.countP_eq_length_filter, hfun]
  · rw [get_priority_count_ok, get_priority_count_ok]
    have hone : List.filter
        (fun a : ActionRec =>
          decide (a.to_username = u) && decide (Priority.LOW ≤ a.priority_level)
            && decide (now - 3600 ≤ a.created_at))
        [sentAction n tr now] = [sentAction n tr now] := by
      simp only [List.filter, sentAction, hu, hp]
      norm_num [Priority.LOW, Priority.PRIORITY]
    rw [mark_sent, List.filter_append, hone]
    simp

/-- Claim C6 witness: an empty ledger plus one PRIORITY delivery to the user. -/
theorem c6_nested_priority_count_witness :
    get_priority_count (Except.ok []) "testupvoted" Priority.PRIORITY 3600 0 none
      = (([] : List ActionRec).countP (fun a =>
          decide (a.to_username = "testupvoted" ∧ Priority.PRIORITY ≤ a.priority_level
            ∧ (0:Int) - 3600 ≤ a.created_at)) : Int)
    ∧ get_priority_count
        (Except.ok (mark_sent [] { voteNotif with priority_level := Priority.PRIORITY }
          "mock" 0)) "testupvoted" Priority.LOW 3600 0 none
      = get_priority_count (Except.ok []) "testupvoted" Priority.LOW 3600 0 none + 1 :=
  c6_nested_priority_count [] "testupvoted" "mock" Priority.PRIORITY 3600 0
    { voteNotif with priority_level := Priority.PRIORITY } rfl rfl

/-- Claim C7: for a LOW-priority notification, soft admission holds iff the
at-or-above-LOW count over the trailing 3600 seconds is 0, and override
admission iff that count is below 10; in particular on an empty ledger the
first LOW notification is admitted, and after its delivery action is
recorded a second LOW check for the same user within the hour is denied. -/
theorem c7_low_tier_admission (q : Except String (List ActionRec)) (n : Notification)
    (tr : String) (now now2 : Int)
    (hp : n.priority_level = Priority.LOW) (ht : now2 - 3600 ≤ now) :
    (check_ratelimit q n false now = true
      ↔ get_priority_count q n.to_username Priority.LOW 3600 now none = 0)
    ∧ (check_ratelimit q n true now = true
      ↔ get_priority_count q n.to_username Priority.LOW 3600 now none < 10)
    ∧ check_ratelimit (Except.ok []) n false now = true
    ∧ check_ratelimit (Except.ok (mark_sent [] n tr now)) n false now2 = false := by
  have hbranch : ∀ (q2 : Except String (List ActionRec)) (ov : Bool) (t : Int),
      check_ratelimit q2 n ov t
        = (if ov then
            decide (get_priority_count q2 n.to_username Priority.LOW 3600 t none < 10)
          else
            decide (get_priority_count q2 n.to_username Priority.LOW 3600 t none = 0)) := by
    intro q2 ov t
    cases ov <;>
      norm_num [check_ratelimit, hp, Priority.LOW, Priority.ALWAYS, Priority.PRIORITY,
        Priority.NORMAL, Priority.MARKETING]
  have hnil : get_priority_count (Except.ok []) n.to_username Priority.LOW 3600 now none
      = 0 := by
    rw [get_priority_count_ok]
    rfl
  have hone : get_priority_count (Except.ok (mark_sent [] n tr now)) n.to_username
      Priority.LOW 3600 now2 none = 1 := by
    rw [get_priority_count_ok]
    have hkeep : List.filter
        (fun a : ActionRec =>
          decide (a.to_username = n.to_username) && decide (Priority.LOW ≤ a.priority_level)
            && decide (now2 - 3600 ≤ a.created_at))
        [sentAction n tr now] = [sentAction n tr now] := by
      have hd : decide (now2 ≤ now + 3600) = true := decide_eq_true (by omega)
      simp [List.filter, sentAction, hp, Priority.LOW, hd]
    rw [mark_sent]
    simp only [List.nil_append, hkeep]
    rfl
  refine ⟨?_, ?_, ?_, ?_⟩
  · rw [hbranch]
    simp
  · rw [hbranch]
    simp
  · rw [hbranch, hnil]
    simp
  · rw [hbranch, hone]
    simp

/-- Claim C7 witness: fresh user, first LOW vote at time 0, second check at
time 10. -/
theorem c7_low_tier_admission_witness :
    ((check_ratelimit (Except.ok []) voteNotif false 0 = true
      ↔ get_priority_count (Except.ok []) voteNotif.to_username Priority.LOW 3600 0 none = 0)
    ∧ (check_ratelimit (Except.ok []) voteNotif true 0 = true
      ↔ get_priority_count (Except.ok []) voteNotif.to_username Priority.LOW 3600 0 none < 10)
    ∧ check_ratelimit (Except.ok []) voteNotif false 0 = true
    ∧ check_ratelimit (Except.ok (mark_sent [] voteNotif "mock" 0)) voteNotif false 10
        = false) :=
  c7_low_tier_admission (Except.ok []) voteNotif "mock" 0 10 rfl (by norm_num)

/-- Claim C8: a follow op (or a reblog op) whose posting-auth list is not
exactly the one-element list naming the acting account yields no notification
from the custom_json pipeline, and no exception escapes the handlers. -/
theorem c8_invalid_social_op_yields_nothing (op : CustomJsonOp) :
    (∀ f g, op.payload.tag = "follow" → op.payload.follower = some f →
        op.payload.following = some g → op.required_posting_auths ≠ [f] →
        handle_custom_json_follow op = Except.ok [])
    ∧ (∀ a b c, op.payload.tag = "reblog" → op.payload.account = some a →
        op.payload.author = some b → op.payload.permlink = some c →
        op.required_posting_auths ≠ [a] →
        handle_custom_json_follow op = Except.ok []) := by
  constructor
  · intro f g htag hf hg hne
    have hres : handle_resteem op = Except.ok (true, []) := by
      simp [handle_resteem, htag]
    have hfol : handle_follow op = Except.ok (false, []) := by
      rcases hl : op.required_posting_auths with _ | ⟨x, xs⟩
      · simp [handle_follow, htag, hf, hg, hl]
      · cases xs with
        | nil =>
          have hxf : ¬(x = f) := by
            intro hx
            exact hne (by rw [hl, hx])
          simp [handle_follow, htag, hf, hg, hl, hxf]
        | cons y ys => simp [handle_follow, htag, hf, hg, hl]
    simp [handle_custom_json_follow, hres, hfol]
  · intro a b c htag ha hb hc hne
    have hfol : handle_follow op = Except.ok (false, []) := by
      simp [handle_follow, htag]
    have hres : handle_resteem op = Except.ok (true, []) := by
      rcases hl : op.required_posting_auths with _ | ⟨x, xs⟩
      · simp [handle_resteem, htag, ha, hb, hc, hl]
      · cases xs with
        | nil =>
          have hxa : ¬(x = a) := by
            intro hx
            exact hne (by rw [hl, hx])
          simp [handle_resteem, htag, ha, hb, hc, hl, hxa]
        | cons y ys => simp [handle_resteem, htag, ha, hb, hc, hl]
    simp [handle_custom_json_follow, hres, hfol]

/-- Claim C8 witness: a follow op with two posting auths and a reblog op
signed by the wrong account both yield no notification and no error. -/
theorem c8_invalid_social_op_yields_nothing_witness :
    handle_custom_json_follow badFollowOp = Except.ok []
    ∧ handle_custom_json_follow badResteemOp = Except.ok [] :=
  ⟨(c8_invalid_social_op_yields_nothing badFollowOp).1 "signer1" "bob"
      rfl rfl rfl (by decide),
   (c8_invalid_social_op_yields_nothing badResteemOp).2 "rebloguser" "bob" "post"
      rfl rfl rfl rfl (by decide)⟩

/-! ## Mention-scanner lemmas -/

/-- A lowercase letter is a name character. -/
theorem isLowerAZ_isNameChar {c : Char} (h : isLowerAZ c = true) : isNameChar c = true := by
  simp [isNameChar, h]

/-- The "@" sigil is not a lowercase letter. -/
theorem isLowerAZ_ne_at {c : Char} (h : isLowerAZ c = true) : c ≠ '@' := by
  intro he
  subst he
  exact absurd h (by decide)

/-- The "@" sigil is not a name character. -/
theorem isNameChar_ne_at {c : Char} (h : isNameChar c = true) : c ≠ '@' := by
  intro he
  subst he
  exact absurd h (by decide)

/-- The "@" sigil is not whitespace. -/
theorem isSpaceCh_ne_at {c : Char} (h : isSpaceCh c = true) : c ≠ '@' := by
  intro he
  subst he
  exact absurd h (by decide)

/-- Inversion of a successful `mentionMatch`: the input starts with "@", a
lowercase letter and the full name-character run, whose length is within
2..15, followed by a whitespace character; the captured name is the letter
plus the run and the consumed length covers sigil, name and whitespace. -/
theorem mentionMatch_some {l name : List Char} {k : Nat}
    (h : mentionMatch l = some (name, k)) :
    ∃ c0 rest w tl,
      l = '@' :: c0 :: rest
      ∧ isLowerAZ c0 = true
      ∧ name = c0 :: rest.takeWhile isNameChar
      ∧ k = (rest.takeWhile isNameChar).length + 3
      ∧ 2 ≤ (rest.takeWhile isNameChar).length
      ∧ (rest.takeWhile isNameChar).length ≤ 15
      ∧ rest.drop (rest.takeWhile isNameChar).length = w :: tl
      ∧ isSpaceCh w = true := by
  rcases l with _ | ⟨a, _ | ⟨c0, rest⟩⟩
  · simp [mentionMatch] at h
  · simp [mentionMatch] at h
  · simp only [mentionMatch] at h
    by_cases h1 : a = '@' ∧ isLowerAZ c0 = true
    · rw [if_pos h1] at h
      by_cases h2 : 2 ≤ (rest.takeWhile isNameChar).length
          ∧ (rest.takeWhile isNameChar).length ≤ 15
      · rw [if_pos h2] at h
        rcases hdrop : rest.drop (rest.takeWhile isNameChar).length with _ | ⟨w, tl⟩
        · rw [hdrop] at h
          simp at h
        · rw [hdrop] at h
          by_cases h3 : isSpaceCh w = true
          · simp [h3] at h
            obtain ⟨hname, hk⟩ := h
            refine ⟨c0, rest, w, tl, ?_, h1.2, hname.symm, hk.symm, h2.1, h2.2, hdrop, h3⟩
            rw [h1.1]
          · simp [h3] at h
      · rw [if_neg h2] at h
        exact absurd h (by simp)
    · rw [if_neg h1] at h
      exact absurd h (by simp)

/-- No mention token starts inside a list whose head-side segment contains no
"@" sigil. -/
theorem specMentionAt_inside_none (mid tl2 : List Char)
    (hmid : ∀ c ∈ mid, c ≠ '@') :
    ∀ i, i < mid.length → specMentionAt ((mid ++ tl2).drop i) = none := by
  induction mid with
  | nil =>
    intro i hi
    simp at hi
  | cons c mid ih =>
    intro i hi
    cases i with
    | zero =>
      have hc : c ≠ '@' := hmid c (List.mem_cons_self c mid)
      simp [specMentionAt, hc]
    | succ j =>
      rw [List.cons_append, List.drop_succ_cons]
      exact ih (fun d hd => hmid d (List.mem_cons_of_mem _ hd)) j
        (by simpa using Nat.lt_of_succ_lt_succ hi)

/-- The spec-level mention token test agrees with the captured group of the
match attempt of the scanner at the same position. -/
theorem specMentionAt_eq_mentionMatch (l : List Char) :
    specMentionAt l = (mentionMatch l).map Prod.fst := by
  rcases l with _ | ⟨a, _ | ⟨c0, rest⟩⟩
  · rfl
  · by_cases ha : a = '@' <;> simp [specMentionAt, mentionMatch, ha]
  · by_cases ha : a = '@'
    · subst ha
      by_cases hc : isNameChar c0 = true
      · by_cases hlz : isLowerAZ c0 = true
        · by_cases h2 : 2 ≤ (rest.takeWhile isNameChar).length
              ∧ (rest.takeWhile isNameChar).length ≤ 15
          · rcases hh : (rest.drop (rest.takeWhile isNameChar).length).head? with _ | w
            · simp [specMentionAt, mentionMatch, List.takeWhile_cons_of_pos hc, hlz,
                h2.1, h2.2, hh,
                show 3 ≤ (rest.takeWhile isNameChar).length + 1 by omega,
                show (rest.takeWhile isNameChar).length + 1 ≤ 16 by omega]
            · by_cases hw : isSpaceCh w = true <;>
                simp [specMentionAt, mentionMatch, List.takeWhile_cons_of_pos hc, hlz,
                  h2.1, h2.2, hh, hw,
                  show 3 ≤ (rest.takeWhile isNameChar).length + 1 by omega,
                  show (rest.takeWhile isNameChar).length + 1 ≤ 16 by omega]
          · rcases Nat.lt_or_ge (rest.takeWhile isNameChar).length 2 with hsm | hbig
            · simp [specMentionAt, mentionMatch, List.takeWhile_cons_of_pos hc, hlz,
                show ¬(3 ≤ (rest.takeWhile isNameChar).length + 1) by omega,
                show ¬(2 ≤ (rest.takeWhile isNameChar).length) by omega]
            · have hlarge : 15 < (rest.takeWhile isNameChar).length := by
                by_contra hx
                exact h2 (And.intro hbig (by omega))
              simp [specMentionAt, mentionMatch, List.takeWhile_cons_of_pos hc, hlz,
                show ¬((rest.takeWhile isNameChar).length + 1 ≤ 16) by omega,
                show ¬((rest.takeWhile isNameChar).length ≤ 15) by omega]
        · simp [specMentionAt, mentionMatch, List.takeWhile_cons_of_pos hc, hlz]
      · have hlz : ¬(isLowerAZ c0 = true) := fun hl => hc (isLowerAZ_isNameChar hl)
        simp [specMentionAt, mentionMatch,
          List.takeWhile_cons_of_neg (by simpa using hc), hlz]
    · simp [specMentionAt, mentionMatch, ha]

/-- If no position below `k` carries a mention token, the spec-level
occurrence list is unchanged by dropping `k` characters. -/
theorem specOcc_drop_of_none :
    ∀ (k : Nat) (l : List Char),
      (∀ j, j < k → specMentionAt (l.drop j) = none) →
      specMentionOccurrences l = specMentionOccurrences (l.drop k) := by
  intro k
  induction k with
  | zero =>
    intro l _
    simp
  | succ k ih =>
    intro l hnone
    cases l with
    | nil => simp
    | cons c rest =>
      have h0 : specMentionAt (c :: rest) = none := by
        simpa using hnone 0 (Nat.succ_pos k)
      have hstep : specMentionOccurrences (c :: rest) = specMentionOccurrences rest := by
        simp [specMentionOccurrences, h0]
      rw [hstep, List.drop_succ_cons]
      exact ih rest (fun j hj => by
        have := hnone (j + 1) (Nat.succ_lt_succ hj)
        rwa [List.drop_succ_cons] at this)

/-- A successful match contributes its captured name to the spec-level
occurrence list and consumes a segment in which no further occurrence
starts. -/
theorem specOcc_of_mentionMatch {l name : List Char} {k : Nat}
    (h : mentionMatch l = some (name, k)) :
    specMentionOccurrences l = name :: specMentionOccurrences (l.drop k) := by
  obtain ⟨c0, rest, w, tl, hl, hlz, hname, hk, h2, h15, hdrop, hw⟩ := mentionMatch_some h
  subst hl hname hk
  obtain ⟨t, ht⟩ := List.takeWhile_prefix (p := isNameChar) (l := rest)
  have hdl : rest.drop (rest.takeWhile isNameChar).length = t := by
    have hleft := List.drop_left (rest.takeWhile isNameChar) t
    rw [ht] at hleft
    exact hleft
  have htt : t = w :: tl := hdl.symm.trans hdrop
  subst htt
  have hat : specMentionAt ('@' :: c0 :: rest)
      = some (c0 :: rest.takeWhile isNameChar) := by
    rw [specMentionAt_eq_mentionMatch, h]
    rfl
  have hstep : specMentionOccurrences ('@' :: c0 :: rest)
      = (c0 :: rest.takeWhile isNameChar) :: specMentionOccurrences (c0 :: rest) := by
    simp [specMentionOccurrences, hat]
  have hmid : ∀ c ∈ (c0 :: (rest.takeWhile isNameChar ++ [w])), c ≠ '@' := by
    intro c hcmem
    rcases List.mem_cons.mp hcmem with hceq | hcm
    · subst hceq
      exact isLowerAZ_ne_at hlz
    · rcases List.mem_append.mp hcm with hrun2 | hwm
      · exact isNameChar_ne_at (List.mem_takeWhile_imp hrun2)
      · have hcw : c = w := List.mem_singleton.mp hwm
        subst hcw
        exact isSpaceCh_ne_at hw
  have hsplit : c0 :: rest = (c0 :: (rest.takeWhile isNameChar ++ [w])) ++ tl := by
    rw [List.cons_append]
    congr 1
    rw [List.append_assoc]
    exact ht.symm
  have hlenmid : (c0 :: (rest.takeWhile isNameChar ++ [w])).length
      = (rest.takeWhile isNameChar).length + 2 := by
    simp
  have hnone : ∀ j, j < (rest.takeWhile isNameChar).length + 2 →
      specMentionAt ((c0 :: rest).drop j) = none := by
    intro j hj
    rw [hsplit]
    exact specMentionAt_inside_none _ tl hmid j (by rw [hlenmid]; exact hj)
  have hocc2 : specMentionOccurrences (c0 :: rest)
      = specMentionOccurrences
          ((c0 :: rest).drop ((rest.takeWhile isNameChar).length + 2)) :=
    specOcc_drop_of_none _ _ hnone
  have hdropfin : (c0 :: rest).drop ((rest.takeWhile isNameChar).length + 2) = tl := by
    rw [hsplit]
    have hleft := List.drop_left (c0 :: (rest.takeWhile isNameChar ++ [w])) tl
    rw [hlenmid] at hleft
    exact hleft
  have hdropl : ('@' :: c0 :: rest).drop ((rest.takeWhile isNameChar).length + 3) = tl := by
    rw [show (rest.takeWhile isNameChar).length + 3
        = ((rest.takeWhile isNameChar).length + 2) + 1 from rfl]
    rw [List.drop_succ_cons]
    exact hdropfin
  rw [hstep, hocc2, hdropfin, hdropl]

/-- With fuel at least the input length, the output of the scanner is exactly the
spec-level occurrence list. -/
theorem findMentionsF_eq_spec :
    ∀ (fuel : Nat) (l : List Char), l.length ≤ fuel →
      findMentionsF fuel l = specMentionOccurrences l := by
  intro fuel
  induction fuel with
  | zero =>
    intro l hl
    have hz : l = [] := List.length_eq_zero.mp (Nat.le_zero.mp hl)
    subst hz
    rfl
  | succ fuel ih =>
    intro l hl
    rcases hm : mentionMatch l with _ | ⟨name, k⟩
    · cases l with
      | nil => rfl
      | cons c rest =>
        have hat : specMentionAt (c :: rest) = none := by
          rw [specMentionAt_eq_mentionMatch, hm]
          rfl
        have hrest : rest.length ≤ fuel := by
          simp only [List.length_cons] at hl
          omega
        simp only [findMentionsF, hm, specMentionOccurrences, hat, Option.toList,
          List.nil_append]
        exact ih rest hrest
    · obtain ⟨c0, rest2, w, tl, hl2, _, _, hk, _, _, _, _⟩ := mentionMatch_some hm
      have hlen : (l.drop k).length ≤ fuel := by
        rw [List.length_drop]
        have h1 : 1 ≤ l.length := by
          rw [hl2]
          simp
        omega
      simp only [findMentionsF, hm]
      rw [specOcc_of_mentionMatch hm, ih (l.drop k) hlen]

/-- The full scan over MENTION_PATTERN enumerates exactly the spec-level
occurrences of mention tokens, in order. -/
theorem findMentions_eq_spec (l : List Char) :
    findMentions l = specMentionOccurrences l :=
  findMentionsF_eq_spec l.length l (le_refl _)

/-- Claim C9 counterexample: a body whose final mention is not followed by any
whitespace character inside the body.  The body contains no occurrence of a
mention token followed by whitespace, yet `handle_mention` emits one MENTION
candidate for it (the scanner appends a newline sentinel to the body before
matching). -/
theorem c9_trailing_mention_without_whitespace :
    specMentionOccurrences trailingMentionOp.body = []
    ∧ (handle_mention trailingMentionOp).map (fun n => n.to_username) = ["alice"] := by
  decide

/-- Claim C9 (amended): `handle_mention` emits exactly one MENTION candidate
per occurrence of a mention token -- "@", a username of a leading lowercase
letter plus 2..15 lowercase/digit/hyphen characters (3..16 in all), followed
by whitespace -- in the body with a newline sentinel appended (so a mention
terminating the body counts), in order, with `to_username` the matched name,
`from_username` the comment author, type "mention", priority LOW and the
op's trx id, with no de-duplication and no cap. -/
theorem c9_mention_per_occurrence (op : CommentOp) :
    (handle_mention op).map (fun n => n.to_username)
      = (specMentionOccurrences (op.body ++ ['\n'])).map String.mk
    ∧ (handle_mention op).all
        (fun n => n.notify_type == "mention"
          && n.from_username == some op.author
          && n.priority_level == Priority.LOW
          && n.trx_id == op.trx_id) = true := by
  constructor
  · unfold handle_mention
    rw [List.map_map, ← findMentions_eq_spec]
    rfl
  · refine List.all_eq_true.mpr ?_
    intro n hn
    obtain ⟨name, _, rfl⟩ := List.mem_map.mp hn
    simp [mkMentionNotif]

/-- Claim C9 witness: a body with a repeated mention, an overlong name and a
trailing mention, evaluated through the amended theorem. -/
theorem c9_mention_per_occurrence_witness :
    (handle_mention repeatedMentionOp).map (fun n => n.to_username)
      = (specMentionOccurrences (repeatedMentionOp.body ++ ['\n'])).map String.mk
    ∧ (handle_mention repeatedMentionOp).all
        (fun n => n.notify_type == "mention"
          && n.from_username == some repeatedMentionOp.author
          && n.priority_level == Priority.LOW
          && n.trx_id == repeatedMentionOp.trx_id) = true :=
  c9_mention_per_occurrence repeatedMentionOp

end Yo
